import Mathlib

/-
  Verification development for the Moby event-driven rigid-body simulation
  kernel.  The definitions below are a shallow embedding of
  src/src/EventDrivenSimulator.cpp and src/include/Moby/Event.h.  C++ doubles
  are modelled as exact rationals; generalized coordinate / velocity vectors as
  lists of rationals; the simulator's mutable members as an explicit SimState
  record threaded through the functions.  External collaborators (collision
  detectors, the impulse resolver, the body ODE) are parameters of an Env
  record, exactly as the spec (section 6) treats them as external interfaces.
-/

namespace Moby

/-- A generalized coordinate or velocity vector of one body (Ravelin VectorNd). -/
abbrev Vec := List ℚ

/-- Componentwise vector sum (VectorNd::operator+=). -/
def vadd (a b : Vec) : Vec := List.zipWith (· + ·) a b

/-- Scaling of a vector by a scalar (VectorNd::operator*=). -/
def vscale (v : Vec) (c : ℚ) : Vec := v.map (· * c)

/-- Exact value of std::numeric_limits of double ::max(), the INF sentinel of
find_TOI (EventDrivenSimulator.cpp line 1077): 2^1024 - 2^971. -/
def DBL_MAX : ℚ := 179769313486231570814527423731704356798070567525844996598917476803157260780028538760589558632766878171540458953514382464234321326889464182768467546703537516986049910576551282076245490090389328944075868508455133942304583236903222948165808559332123348274797826204144723168738177180919299881250404026184124858368

/-- Exact value of std::numeric_limits of double ::epsilon(): 2^-52. -/
def DBL_EPSILON : ℚ := 1 / 4503599627370496

/-- Event::EventType (Event.h line 29). -/
inductive EventType
  | eNone
  | eContact
  | eLimit
  | eConstraint
deriving DecidableEq

/-- Event::EventClass (Event.h line 30). -/
inductive EventClass
  | eUndetermined
  | eSeparating
  | eResting
  | eImpacting
deriving DecidableEq

/-- A collision geometry together with the body structure reachable from it in
get_contact_parameters (EventDrivenSimulator.cpp lines 78-109): the geometry's
own BasePtr identity, the identity of its single body
(CollisionGeometry::get_single_body), and, when that single body is a rigid
body belonging to an articulated body, the articulated body's identity.
Pointer identities are modelled as naturals. -/
structure Geom where
  gid : ℕ
  sbid : ℕ
  abid : Option ℕ
deriving DecidableEq

/-- ContactParameters (ContactParameters.h is absent from src/; fields are the
ones Event.h lines 107-117 receives from it): Coulomb and viscous friction
coefficients, restitution, and friction-cone edge count. -/
structure CParams where
  mu_coulomb : ℚ
  mu_viscous : ℚ
  epsilon : ℚ
  NK : ℕ
deriving DecidableEq

/-- The Event record (Event.h lines 26-136).  Fields kept are exactly the ones
read or written by the embedded routines: event_type, normalized time t, real
time t_true, tolerance tol, the contact geometry pair, the limit joint and dof,
the constraint joint, and the contact material parameters.  The field vel is
modelled from the spec: it caches the value of calc_event_vel (Event.cpp is
absent from src/), the signed relative velocity along the event's constraint
direction, negative when approaching (spec section 4.1).  Payload fields never
read by the embedded code (contact point, normal, tangents, impulses,
limit_upper, limit_epsilon) are omitted. -/
structure Event where
  event_type : EventType
  t : ℚ
  t_true : ℚ
  vel : ℚ
  tol : ℚ
  contact_geom1 : Geom
  contact_geom2 : Geom
  limit_joint : ℕ
  limit_dof : ℕ
  constraint_joint : ℕ
  contact_mu_coulomb : ℚ
  contact_mu_viscous : ℚ
  contact_epsilon : ℚ
  contact_NK : ℕ
deriving DecidableEq

/-- Modelled from the spec: Event::determine_event_class (Event.cpp is absent
from src/; spec section 4.1): v > tol gives Separating, |v| <= tol gives
Resting (boundary inclusive), v < -tol gives Impacting, where v is the signed
relative velocity along the event's constraint direction. -/
def determine_event_class (e : Event) : EventClass :=
  if e.tol < e.vel then EventClass.eSeparating
  else if |e.vel| ≤ e.tol then EventClass.eResting
  else EventClass.eImpacting

/-- Event::is_impacting (Event.h line 39): the class equals eImpacting. -/
def is_impacting (e : Event) : Bool :=
  match determine_event_class e with
  | EventClass.eImpacting => true
  | _ => false

/-- Modelled from the spec: the event-identity key of the Tolerance Table
(the EventCompare comparator of the _event_tolerances map lives in
EventDrivenSimulator.h, absent from src/).  Spec section 3: a recurring
identity is the contact geometry pair, or the joint plus degree of freedom. -/
inductive EventID
  | contactId (p : ℕ × ℕ)
  | limitId (joint dof : ℕ)
  | constraintId (joint : ℕ)
  | noneId
deriving DecidableEq

/-- The unordered pair of two pointer identities (make_sorted_pair). -/
def spair (a b : ℕ) : ℕ × ℕ := if a ≤ b then (a, b) else (b, a)

/-- Modelled from the spec: the identity of an event, per the spec's
Tolerance Table keying (contact geometry pair, or joint and dof). -/
def eventID (e : Event) : EventID :=
  match e.event_type with
  | EventType.eContact => EventID.contactId (spair e.contact_geom1.gid e.contact_geom2.gid)
  | EventType.eLimit => EventID.limitId e.limit_joint e.limit_dof
  | EventType.eConstraint => EventID.constraintId e.constraint_joint
  | EventType.eNone => EventID.noneId

/-- The Tolerance Table: std::map from event identity to learned tolerance
(_event_tolerances), modelled as an association list with std::map assignment
and lookup semantics. -/
abbrev TolTable := List (EventID × ℚ)

/-- std::map operator[] assignment: overwrite the entry for the key, or append
a fresh one. -/
def setTol (tbl : TolTable) (k : EventID) (v : ℚ) : TolTable :=
  match tbl with
  | [] => [(k, v)]
  | (k1, v1) :: rest => if k1 = k then (k, v) :: rest else (k1, v1) :: setTol rest k v

/-- std::map find: the value stored for the key, if any. -/
def lookupTol (tbl : TolTable) (k : EventID) : Option ℚ :=
  match tbl with
  | [] => Option.none
  | (k1, v1) :: rest => if k1 = k then some v1 else lookupTol rest k

/-- The contact_params member of the simulator: std::map from a sorted pair of
BasePtr identities to contact parameters, modelled as an association list. -/
abbrev ParamMap := List ((ℕ × ℕ) × CParams)

/-- std::map find on the contact-parameters map. -/
def findParam (m : ParamMap) (k : ℕ × ℕ) : Option CParams :=
  (m.find? (fun p => decide (p.1 = k))).map (·.2)

/-- The mutable members of EventDrivenSimulator that the embedded routines
read or write: the current event vector _events, the cached start coordinates
_q0, end coordinates _qf and end velocities _qdf of all bodies, the bodies'
own generalized coordinates and velocities (what
get/set_generalized_coordinates and get/set_generalized_velocity touch),
current_time, the Tolerance Table _event_tolerances, and the
contact-parameters map contact_params. -/
structure SimState where
  events : List Event
  q0 : List Vec
  qf : List Vec
  qdf : List Vec
  coords : List Vec
  vels : List Vec
  current_time : ℚ
  event_tolerances : TolTable
  contact_params : ParamMap
deriving DecidableEq

/-- The trailing no-impact block of find_TOI (EventDrivenSimulator.cpp lines
1173-1191), reached when the candidate walk exhausts: _events is cleared, and
for every body _qf[i] = _qdf[i]*dt, _q0[i] += _qf[i], and the body's
generalized coordinates are set to _qf[i] (line 1185 passes _qf[i], not
_q0[i], so the bodies receive velocity*dt rather than the integrated end
position); current_time advances by dt and INF (DBL_MAX) is returned. -/
def findTOI_exhausted (dt : ℚ) (st : SimState) : ℚ × SimState :=
  let qf1 := st.qdf.map (fun v => vscale v dt)
  let q01 := List.zipWith vadd st.q0 qf1
  (DBL_MAX,
   { st with events := [], qf := qf1, q0 := q01, coords := qf1,
             current_time := st.current_time + dt })

/-- EventDrivenSimulator::find_TOI (lines 1075-1192).  The while loop at line
1089 executes its body at most once: every branch either returns, or (the
no-impacting-event branch, line 1170) assigns to citer the iterator returned
by _events.erase(citer, _events.end()), which is _events.end(), so the loop
condition fails and control falls through to the trailing no-impact block.
The translation therefore inspects only the first candidate and its
epsilon-simultaneous group. -/
def find_TOI (dt : ℚ) (st : SimState) : ℚ × SimState :=
  match st.events with
  | [] => findTOI_exhausted dt st
  | e :: rest1 =>
    let tmin := e.t * dt
    if tmin > dt then
      -- lines 1096-1117: no blocking event; clear events, set every body to
      -- _qf[i] = _q0[i] + _qdf[i]*dt, advance current_time by dt, return INF
      let qf1 := List.zipWith (fun a b => vadd a (vscale b dt)) st.q0 st.qdf
      (DBL_MAX,
       { st with events := [], qf := qf1, coords := qf1,
                 current_time := st.current_time + dt })
    else
      -- lines 1120-1130: h += tmin, position every body at
      -- _qf[i] = _q0[i] + _qdf[i]*h (h = tmin since h starts at 0)
      let h := tmin
      let qfm := List.zipWith (fun a b => vadd a (vscale b h)) st.q0 st.qdf
      let stm := { st with qf := qfm, coords := qfm }
      -- lines 1132-1146: gather all later events within epsilon of tmin and
      -- test the whole simultaneous group for an impacting member
      let group := rest1.takeWhile (fun e2 => decide (e2.t * dt ≤ tmin + DBL_EPSILON))
      let impacting := is_impacting e || group.any is_impacting
      if impacting then
        -- lines 1149-1167: keep only the prefix through the group, step
        -- positions to h (_qf[i] = _qdf[i]*h; _q0[i] += _qf[i]; bodies get
        -- _q0[i]), advance current_time by h, return h
        let qf2 := stm.qdf.map (fun v => vscale v h)
        let q02 := List.zipWith vadd stm.q0 qf2
        (h,
         { stm with events := e :: group, qf := qf2, q0 := q02, coords := q02,
                    current_time := stm.current_time + h })
      else
        -- line 1170: erase the unprocessed suffix; the returned end iterator
        -- terminates the while loop and the no-impact block runs
        findTOI_exhausted dt stm

/-- EventDrivenSimulator::get_contact_parameters (lines 70-136), translated
branch for branch: each std::map find with an early return on success becomes
one level of matching, and the articulated-body lookups keep their guards
(lines 112-118 run only when ab1 exists, 121-127 only when ab2 exists, 130-132
only when both exist) and their order: (geom2, ab1), (body2, ab1) before
(geom1, ab2), (body1, ab2). -/
def get_contact_parameters (cp : ParamMap) (g1 g2 : Geom) : Option CParams :=
  match findParam cp (spair g1.gid g2.gid) with
  | some p => some p
  | Option.none =>
  match findParam cp (spair g1.gid g2.sbid) with
  | some p => some p
  | Option.none =>
  match findParam cp (spair g2.gid g1.sbid) with
  | some p => some p
  | Option.none =>
  match findParam cp (spair g1.sbid g2.sbid) with
  | some p => some p
  | Option.none =>
  match g1.abid with
  | some a1 =>
    (match findParam cp (spair g2.gid a1) with
     | some p => some p
     | Option.none =>
     match findParam cp (spair g2.sbid a1) with
     | some p => some p
     | Option.none => getCP_ab2 cp g1 g2 a1)
  | Option.none =>
  match g2.abid with
  | some a2 =>
    (match findParam cp (spair g1.gid a2) with
     | some p => some p
     | Option.none =>
     match findParam cp (spair g1.sbid a2) with
     | some p => some p
     | Option.none => Option.none)
  | Option.none => Option.none
where
  /-- Continuation after the ab1 block missed: the ab2 block (lines 121-127),
  the final two-articulated-bodies lookup (lines 130-132), and the
  no-data-found return of line 135. -/
  getCP_ab2 (cp : ParamMap) (g1 g2 : Geom) (a1 : ℕ) : Option CParams :=
    match g2.abid with
    | some a2 =>
      (match findParam cp (spair g1.gid a2) with
       | some p => some p
       | Option.none =>
       match findParam cp (spair g1.sbid a2) with
       | some p => some p
       | Option.none =>
       match findParam cp (spair a1 a2) with
       | some p => some p
       | Option.none => Option.none)
    | Option.none => Option.none

/-- The sequence of keys get_contact_parameters probes, in probe order. -/
def contactParamKeys (g1 g2 : Geom) : List (ℕ × ℕ) :=
  [spair g1.gid g2.gid, spair g1.gid g2.sbid, spair g2.gid g1.sbid,
   spair g1.sbid g2.sbid]
  ++ (match g1.abid with
      | some a1 => [spair g2.gid a1, spair g2.sbid a1]
      | Option.none => [])
  ++ (match g2.abid with
      | some a2 => [spair g1.gid a2, spair g1.sbid a2]
      | Option.none => [])
  ++ (match g1.abid, g2.abid with
      | some a1, some a2 => [spair a1 a2]
      | _, _ => [])

/-- First-match-wins lookup over an ordered key sequence. -/
def firstMatch (cp : ParamMap) (ks : List (ℕ × ℕ)) : Option CParams :=
  match ks with
  | [] => Option.none
  | k :: ks1 =>
    match findParam cp k with
    | some p => some p
    | Option.none => firstMatch cp ks1

/-- The lookup order asserted by the claim: six strict levels,
(geometry, geometry), (geometry, rigid body), (rigid body, rigid body),
(geometry, articulated body), (rigid body, articulated body),
(articulated body, articulated body), each level exhausted before the next.
This definition follows the claim's words, for comparison with
get_contact_parameters, which is translated from the source. -/
def get_contact_parameters_claimed (cp : ParamMap) (g1 g2 : Geom) : Option CParams :=
  firstMatch cp
    ([spair g1.gid g2.gid, spair g1.gid g2.sbid, spair g2.gid g1.sbid,
      spair g1.sbid g2.sbid]
     ++ (match g1.abid with
         | some a1 => [spair g2.gid a1]
         | Option.none => [])
     ++ (match g2.abid with
         | some a2 => [spair g1.gid a2]
         | Option.none => [])
     ++ (match g1.abid with
         | some a1 => [spair g2.sbid a1]
         | Option.none => [])
     ++ (match g2.abid with
         | some a2 => [spair g1.sbid a2]
         | Option.none => [])
     ++ (match g1.abid, g2.abid with
         | some a1, some a2 => [spair a1 a2]
         | _, _ => []))

/-- Modelled from the spec: Event::set_contact_parameters (Event.cpp is absent
from src/): copies the Coulomb and viscous friction coefficients, the
restitution coefficient and the friction-cone edge count of the contact
parameters into the event (the fields of Event.h lines 107-117). -/
def set_contact_parameters (e : Event) (p : CParams) : Event :=
  { e with contact_mu_coulomb := p.mu_coulomb, contact_mu_viscous := p.mu_viscous,
           contact_epsilon := p.epsilon, contact_NK := p.NK }

/-- EventDrivenSimulator::preprocess_event (lines 329-355): limit and none
events pass through; for a contact event the parameters found by
get_contact_parameters are installed, and when none are found a warning is
printed to std::cerr and the event is left unchanged ("... ignoring").  The
boolean records whether the warning fired. -/
def preprocess_event (cp : ParamMap) (e : Event) : Event × Bool :=
  match e.event_type with
  | EventType.eLimit => (e, false)
  | EventType.eNone => (e, false)
  | _ =>
    match get_contact_parameters cp e.contact_geom1 e.contact_geom2 with
    | some p => (set_contact_parameters e p, false)
    | Option.none => (e, true)

/-- The preprocessing loop of handle_events (lines 295-296). -/
def preprocess_all (st : SimState) : SimState :=
  { st with events := st.events.map (fun e => (preprocess_event st.contact_params e).1) }

/-- The external collaborators of the simulator (spec section 6), passed as
parameters: the registered collision detectors' concatenated is_contact
output, the articulated bodies' find_limit_events output, the net effect of
integrate_si_Euler's per-body ode_both collaborator on the bodies' coordinates
and velocities, the impulse resolver ImpactEventHandler::process_events
(returning the mutated state and, when it throws ImpactToleranceException, the
offending event subset the exception carries), and the std::sort
implementation used at line 599 (implementation-defined among sorted
permutations; constrained by SortSpec where a theorem needs sortedness). -/
structure Env where
  is_contact : ℚ → List Vec → List Vec → List Event
  find_limit_events : ℚ → List Vec → List Vec → List Event
  integrate : ℚ → ℚ → List Vec → List Vec → (List Vec × List Vec)
  process_events : SimState → SimState × Option (List Event)
  sort_events : List Event → List Event

/-- EventDrivenSimulator::handle_events (lines 279-326): preprocess every
event, call ImpactEventHandler::process_events once, and on an
ImpactToleranceException set the Tolerance Table entry of each offending
event's identity to |calc_event_vel| plus machine epsilon (lines 303-315).
The second component counts how many times process_events was invoked. -/
def handle_events (env : Env) (st : SimState) : SimState × ℕ :=
  let st1 := preprocess_all st
  let r := env.process_events st1
  match r.2 with
  | Option.none => (r.1, 1)
  | some thrown =>
    let tbl1 := thrown.foldl
      (fun tbl ev => setTol tbl (eventID ev) (abs ev.vel + DBL_EPSILON))
      r.1.event_tolerances
    ({ r.1 with event_tolerances := tbl1 }, 1)

/-- The per-event stamping loop of find_and_handle_si_events (lines 610-617):
t_true = current_time + t*dt, and tol replaced by the Tolerance Table entry of
the event's identity when one exists. -/
def stamp_event (tbl : TolTable) (ct dt : ℚ) (e : Event) : Event :=
  let e1 := { e with t_true := ct + e.t * dt }
  match lookupTol tbl (eventID e1) with
  | some tl => { e1 with tol := tl }
  | Option.none => e1

/-- EventDrivenSimulator::find_and_handle_si_events (lines 537-627): clear
_events, collect the collision detectors' contact events and the joint-limit
events, sort by t (std::sort, line 599), stamp real times and learned
tolerances, run find_TOI, and when it reports a time of impact below dt handle
the events. -/
def find_and_handle_si_events (env : Env) (dt : ℚ) (st : SimState) : ℚ × SimState :=
  let evs0 := env.is_contact dt st.q0 st.qf ++ env.find_limit_events dt st.q0 st.qf
  let evs := (env.sort_events evs0).map (stamp_event st.event_tolerances st.current_time dt)
  let p := find_TOI dt { st with events := evs }
  if p.1 < dt then (p.1, (handle_events env p.2).1) else p

/-- The while loop of EventDrivenSimulator::step (lines 503-527), with fuel to
make the (potentially Zeno-nonterminating, spec section 9) loop total: while
dt > 0, find and handle events over the remaining interval; a returned time
past dt ends the step; otherwise shrink dt, refresh _qdf from the bodies'
velocities, and re-derive _qf = _q0 + _qdf*dt for the shortened remainder. -/
def stepLoop (env : Env) : ℕ → ℚ → SimState → Option SimState
  | 0, _, _ => Option.none
  | Nat.succ fuel, dt, st =>
    if dt > 0 then
      let p := find_and_handle_si_events env dt st
      if p.1 > dt then some p.2
      else
        let dt1 := dt - p.1
        let st1 := { p.2 with qdf := p.2.vels }
        let qf1 := List.zipWith (fun a b => vadd a (vscale b dt1)) st1.q0 st1.qdf
        stepLoop env fuel dt1 { st1 with qf := qf1 }
    else some st

/-- EventDrivenSimulator::step (lines 470-534): snapshot _q0 from the bodies,
integrate every body over the full step (integrate_si_Euler, whose ode_both
collaborator is the Env's integrate), snapshot _qf and _qdf, run the event
loop, and return step_size unchanged (line 533).  Option.none is fuel
exhaustion of the unbounded while loop. -/
def step (env : Env) (fuel : ℕ) (step_size : ℚ) (st : SimState) : Option (ℚ × SimState) :=
  let st1 := { st with q0 := st.coords }
  let r := env.integrate st1.current_time step_size st1.coords st1.vels
  let st2 := { st1 with coords := r.1, vels := r.2 }
  let st3 := { st2 with qf := st2.coords, qdf := st2.vels }
  (stepLoop env fuel step_size st3).map (fun s => (step_size, s))

/-- The contract of the std::sort call at line 599 with Event::operator<
(Event.h line 125, comparing t only): the output is some permutation of the
input that is nondecreasing in t.  The C++ standard guarantees nothing more;
in particular it does not promise stability. -/
def SortSpec (input output : List Event) : Prop :=
  input.Perm output ∧ List.Sorted (fun a b => a.t ≤ b.t) output

/-- Stability of a sort keyed on t: for every key, the subsequence of events
carrying that exact t is the same before and after sorting. -/
def StableByT (input output : List Event) : Prop :=
  ∀ q : ℚ, input.filter (fun e => decide (e.t = q)) =
    output.filter (fun e => decide (e.t = q))

/-
  Concrete fixtures used by counterexamples and witnesses.
-/

/-- A geometry on rigid body 2 inside articulated body 3. -/
def gA : Geom := { gid := 1, sbid := 2, abid := some 3 }

/-- A geometry on rigid body 5 inside articulated body 6. -/
def gB : Geom := { gid := 4, sbid := 5, abid := some 6 }

/-- An event of the given type, normalized time, relative velocity and
tolerance between the fixture geometries. -/
def mkEv (ty : EventType) (t v tol : ℚ) : Event :=
  { event_type := ty, t := t, t_true := 0, vel := v, tol := tol,
    contact_geom1 := gA, contact_geom2 := gB,
    limit_joint := 0, limit_dof := 0, constraint_joint := 0,
    contact_mu_coulomb := 0, contact_mu_viscous := 0, contact_epsilon := 0,
    contact_NK := 0 }

/-- A one-body state with all coordinates and velocities zero and no events. -/
def stZero : SimState :=
  { events := [], q0 := [[0]], qf := [[0]], qdf := [[0]], coords := [[0]],
    vels := [[0]], current_time := 0, event_tolerances := [], contact_params := [] }

/-- An environment with no detectors firing, the identity integration, a
resolver that never throws, and the identity sort. -/
def envNull : Env :=
  { is_contact := fun _ _ _ => [], find_limit_events := fun _ _ _ => [],
    integrate := fun _ _ c v => (c, v),
    process_events := fun s => (s, Option.none), sort_events := id }

/-
  Helper lemmas shared by several claims.
-/

/-- Dichotomy of find_TOI: either it returns the INF sentinel with the event
vector cleared, or it returns a time at most dt and the committed event vector
has an impacting member. -/
theorem findTOI_commit_dichotomy (dt : ℚ) (st : SimState) :
    ((find_TOI dt st).1 = DBL_MAX ∧ (find_TOI dt st).2.events = []) ∨
    ((find_TOI dt st).1 ≤ dt ∧ (find_TOI dt st).2.events.any is_impacting = true) := by
  obtain ⟨evs, q0, qf, qdf, coords, vels, ct, tols, cps⟩ := st
  cases evs with
  | nil => left; exact ⟨rfl, rfl⟩
  | cons e rest1 =>
    simp only [find_TOI]
    split
    · left; exact ⟨rfl, rfl⟩
    · next hle =>
      split
      · next himp =>
        right
        refine ⟨le_of_not_lt hle, ?_⟩
        simpa [List.any_cons] using himp
      · left; exact ⟨rfl, rfl⟩

/-- std::map assignment followed by lookup of the same key yields the
assigned value. -/
theorem lookupTol_setTol (tbl : TolTable) (k : EventID) (v : ℚ) :
    lookupTol (setTol tbl k v) k = some v := by
  induction tbl with
  | nil => simp [setTol, lookupTol]
  | cons p rest ih =>
    obtain ⟨k1, v1⟩ := p
    by_cases h : k1 = k
    · simp [setTol, lookupTol, h]
    · simp [setTol, lookupTol, h, ih]

/-- The event identity does not depend on the stamped real time. -/
theorem eventID_set_t_true (e : Event) (x : ℚ) :
    eventID { e with t_true := x } = eventID e := by
  cases e with
  | mk ty t tt v tol g1 g2 lj ld cj mc mv ce nk => cases ty <;> rfl

/-- Machine epsilon is positive. -/
theorem dbl_epsilon_pos : (0 : ℚ) < DBL_EPSILON := by norm_num [DBL_EPSILON]

/-
  Claim C1.
-/

/-- Claim C1, counterexample: find_TOI called with dt = 1 (which is
nonnegative) on a state with no candidate events returns DBL_MAX, which is
strictly greater than dt, refuting "the returned value h never satisfies
h > dt". -/
theorem find_TOI_sentinel_exceeds_dt :
    (0 : ℚ) ≤ 1 ∧ (find_TOI 1 stZero).1 > 1 := by
  constructor
  · norm_num
  · norm_num [find_TOI, findTOI_exhausted, stZero, DBL_MAX]

/-- Claim C1 (amended): for every dt and state, find_TOI either returns the
no-event sentinel DBL_MAX (not dt) with the committed event set cleared, hence
containing zero Impacting events, or returns a time h at most dt whose
committed event set contains at least one Impacting event. -/
theorem find_TOI_sentinel_or_impacting :
    ∀ (dt : ℚ) (st : SimState),
    ((find_TOI dt st).1 = DBL_MAX ∧ (find_TOI dt st).2.events = []) ∨
    ((find_TOI dt st).1 ≤ dt ∧ (find_TOI dt st).2.events.any is_impacting = true) :=
  fun dt st => findTOI_commit_dichotomy dt st

/-
  Claim C3.
-/

/-- The non-impacting resting candidate at t = 3/10 of the C3 fixture. -/
def evRest3 : Event := mkEv EventType.eContact (3/10) 0 0

/-- The impacting candidate at t = 9/10 of the C3 fixture. -/
def evImp3 : Event := mkEv EventType.eContact (9/10) (-1) 0

/-- The C3 fixture state: a resting candidate followed by a later impacting
candidate, both inside [0, dt]. -/
def stC3 : SimState := { stZero with events := [evRest3, evImp3] }

/-- Claim C3, failing run: the candidate list holds a non-impacting event at
t = 3/10 and an impacting event at t = 9/10, both within dt = 1 and not
epsilon-simultaneous.  The claim (and the loop comment at lines 1087-1088)
says the walk continues past the non-impacting group and finds the impacting
one, returning 9/10; but line 1170 erases the unprocessed suffix [citer, end)
instead of the processed prefix, so find_TOI never examines the impacting
candidate: it returns the sentinel and clears the event vector. -/
theorem find_TOI_discards_later_candidates :
    stC3.events = [evRest3, evImp3] ∧
    is_impacting evImp3 = true ∧
    evImp3.t * 1 ≤ 1 ∧
    (find_TOI 1 stC3).1 = DBL_MAX ∧
    (find_TOI 1 stC3).2.events = [] := by
  refine ⟨rfl, rfl, ?_, ?_⟩
  · norm_num [evImp3, mkEv]
  · norm_num [find_TOI, findTOI_exhausted, stC3, stZero, evRest3, evImp3, mkEv,
      is_impacting, determine_event_class, List.takeWhile, DBL_EPSILON]

/-
  Claim C9.
-/

/-- Claim C9: whatever the environment does (events detected or not,
tolerance violations raised or not), whenever step returns, the value
returned is exactly the step_size argument (line 533). -/
theorem step_returns_step_size :
    ∀ (env : Env) (fuel : ℕ) (s : ℚ) (st : SimState),
    step env fuel s st = Option.none ∨ (step env fuel s st).map Prod.fst = some s := by
  intro env fuel s st
  have key : ∀ (o : Option SimState),
      (o.map (fun x => (s, x)) = Option.none) ∨
      ((o.map (fun x => (s, x))).map Prod.fst = some s) := by
    intro o; cases o <;> simp
  exact key _

/-
  Claim C10.
-/

/-- The event-handling dispatch at the tail of find_and_handle_si_events,
over an arbitrary already-built state: a DBL_MAX report leaves an empty event
list whenever dt < DBL_MAX. -/
theorem fah_sentinel_aux (env : Env) (dt : ℚ) (stb : SimState) (hdt : dt < DBL_MAX) :
    (if (find_TOI dt stb).1 < dt
     then ((find_TOI dt stb).1, (handle_events env (find_TOI dt stb).2).1)
     else find_TOI dt stb).1 = DBL_MAX →
    (if (find_TOI dt stb).1 < dt
     then ((find_TOI dt stb).1, (handle_events env (find_TOI dt stb).2).1)
     else find_TOI dt stb).2.events = [] := by
  intro h
  rcases findTOI_commit_dichotomy dt stb with ⟨h1, h2⟩ | ⟨h1, h2⟩
  · rw [if_neg (by rw [h1]; exact not_lt.mpr (le_of_lt hdt))] at h ⊢
    exact h2
  · by_cases hc : (find_TOI dt stb).1 < dt
    · rw [if_pos hc] at h
      exact absurd (h ▸ hc) (not_lt.mpr (le_of_lt hdt))
    · rw [if_neg hc] at h
      exact absurd (h ▸ h1) (not_le.mpr hdt)

/-- Claim C10: when find_and_handle_si_events reports the no-blocking-event
sentinel (DBL_MAX, possible only through find_TOI's sentinel paths when
dt < DBL_MAX), the stored event list afterwards is empty, so read-only
inspection of the most recent event list observes zero events. -/
theorem sentinel_clears_events :
    ∀ (env : Env) (dt : ℚ) (st : SimState), dt < DBL_MAX →
    (find_and_handle_si_events env dt st).1 = DBL_MAX →
    (find_and_handle_si_events env dt st).2.events = [] := by
  intro env dt st hdt
  exact fah_sentinel_aux env dt _ hdt

/-- Claim C10, witness: with no detectors and dt = 1 the sentinel is reported
and the event list afterwards is empty. -/
theorem sentinel_clears_events_witness :
    (find_and_handle_si_events envNull 1 stZero).2.events = [] :=
  sentinel_clears_events envNull 1 stZero
    (by norm_num [DBL_MAX])
    (by norm_num [find_and_handle_si_events, find_TOI, findTOI_exhausted,
      envNull, stZero, stamp_event, DBL_MAX])

/-
  Claim C6.
-/

/-- Claim C6: for every event whose tolerance is nonnegative (every tolerance
the simulator installs is: learned entries are |v| plus machine epsilon, and
defaults are nonnegative), the class is Separating exactly when v > tol,
Resting exactly when |v| <= tol (so v exactly equal to tol classifies
Resting, not Separating), and Impacting exactly when v < -tol. -/
theorem determine_event_class_spec :
    ∀ e : Event, 0 ≤ e.tol →
    ((determine_event_class e = EventClass.eSeparating ↔ e.tol < e.vel) ∧
     (determine_event_class e = EventClass.eResting ↔ |e.vel| ≤ e.tol) ∧
     (determine_event_class e = EventClass.eImpacting ↔ e.vel < -e.tol)) := by
  intro e htol
  unfold determine_event_class
  rcases abs_cases e.vel with ⟨hv, hv0⟩ | ⟨hv, hv0⟩ <;>
  · split
    · next h1 =>
      simp only [reduceCtorEq, false_iff, true_iff, iff_true, iff_false]
      refine ⟨h1, fun hc => ?_, fun hc => ?_⟩
      · rw [hv] at hc; linarith
      · linarith
    · next h1 =>
      split
      · next h2 =>
        simp only [reduceCtorEq, false_iff, true_iff, iff_true, iff_false]
        rw [hv] at h2
        refine ⟨h1, by rw [hv]; exact h2, fun hc => ?_⟩
        linarith
      · next h2 =>
        simp only [reduceCtorEq, false_iff, true_iff, iff_true, iff_false]
        rw [hv] at h2
        refine ⟨h1, by rw [hv]; exact h2, ?_⟩
        rw [not_le] at h2
        rw [not_lt] at h1
        linarith

/-- An event sitting exactly at its tolerance: v = tol = 1. -/
def evB6 : Event := mkEv EventType.eContact 0 1 1

/-- Claim C6, witness: the boundary event with v exactly +tol classifies
Resting. -/
theorem determine_event_class_spec_witness :
    determine_event_class evB6 = EventClass.eResting :=
  ((determine_event_class_spec evB6 (by norm_num [evB6, mkEv])).2.1).mpr
    (by norm_num [evB6, mkEv])

/-
  Claim C7.
-/

/-- Claim C7: after a tolerance violation naming event ev makes handle_events
record |ev.vel| + epsilon for ev's identity, any later candidate event of the
same identity stamped from the resulting Tolerance Table has its tol set to
that entry, so a relative velocity with |v| <= ev.vel classifies Resting, not
Impacting. -/
theorem learned_tolerance_reclassifies :
    ∀ (env : Env) (st stR : SimState) (ev e1 : Event) (ct dt : ℚ),
    env.process_events (preprocess_all st) = (stR, some [ev]) →
    eventID e1 = eventID ev →
    |e1.vel| ≤ ev.vel →
    (determine_event_class
       (stamp_event (handle_events env st).1.event_tolerances ct dt e1)
       = EventClass.eResting ∧
     determine_event_class
       (stamp_event (handle_events env st).1.event_tolerances ct dt e1)
       ≠ EventClass.eImpacting) := by
  intro env st stR ev e1 ct dt hproc hid hvel
  have htbl : (handle_events env st).1.event_tolerances
      = setTol stR.event_tolerances (eventID ev) (abs ev.vel + DBL_EPSILON) := by
    simp only [handle_events, hproc, List.foldl]
  have hres : stamp_event (handle_events env st).1.event_tolerances ct dt e1
      = { e1 with t_true := ct + e1.t * dt, tol := abs ev.vel + DBL_EPSILON } := by
    simp only [stamp_event, eventID_set_t_true, hid, htbl, lookupTol_setTol]
  rw [hres]
  have h1 : e1.vel ≤ abs ev.vel := le_trans (le_abs_self _) (le_trans hvel (le_abs_self _))
  have h2 : |e1.vel| ≤ abs ev.vel := le_trans hvel (le_abs_self _)
  have heps := dbl_epsilon_pos
  have hcls : determine_event_class
      { e1 with t_true := ct + e1.t * dt, tol := abs ev.vel + DBL_EPSILON }
      = EventClass.eResting := by
    unfold determine_event_class
    rw [if_neg (by simp only [not_lt]; linarith), if_pos (by simp only []; linarith [h2])]
  exact ⟨hcls, by rw [hcls]; intro hcon; cases hcon⟩

/-- The C7 fixture violation event: measured velocity 2. -/
def evW7 : Event := mkEv EventType.eContact 0 2 0

/-- The C7 fixture later candidate: same identity, velocity 1. -/
def e1W7 : Event := mkEv EventType.eContact 0 1 0

/-- The C7 environment: the resolver always throws a tolerance violation
naming evW7. -/
def envW7 : Env :=
  { is_contact := fun _ _ _ => [], find_limit_events := fun _ _ _ => [],
    integrate := fun _ _ c v => (c, v),
    process_events := fun s => (s, some [evW7]), sort_events := id }

/-- Claim C7, witness: after the violation records |2| + epsilon, the later
candidate with velocity 1 stamps to Resting. -/
theorem learned_tolerance_reclassifies_witness :
    determine_event_class
      (stamp_event (handle_events envW7 stZero).1.event_tolerances 0 1 e1W7)
      = EventClass.eResting :=
  (learned_tolerance_reclassifies envW7 stZero (preprocess_all stZero) evW7 e1W7 0 1
    rfl rfl (by norm_num [e1W7, evW7, mkEv])).1

/-
  Claim C2.
-/

/-- Claim C2, counterexample: an environment whose resolver raises a
tolerance violation naming evW7; handle_events invokes the resolver exactly
once, refuting "retries resolution of the same event set": a retry would
require at least two invocations before control returns. -/
theorem handle_events_no_retry_cx :
    (envW7.process_events (preprocess_all stZero)).2 = some [evW7] ∧
    (handle_events envW7 stZero).2 = 1 ∧
    ¬ 2 ≤ (handle_events envW7 stZero).2 := by
  refine ⟨rfl, rfl, ?_⟩
  have h : (handle_events envW7 stZero).2 = 1 := rfl
  rw [h]
  norm_num

/-- Claim C2 (amended): when resolution raises a tolerance violation naming a
subset of events, handle_events updates the Tolerance Table entry for each
named event's identity to |measured velocity| + machine epsilon and then
returns without retrying: the resolver is invoked exactly once, and the
learned tolerances only take effect in later event-set builds. -/
theorem handle_events_updates_tolerances_no_retry :
    ∀ (env : Env) (st stR : SimState) (thrown : List Event),
    env.process_events (preprocess_all st) = (stR, some thrown) →
    ((handle_events env st).2 = 1 ∧
     (handle_events env st).1.event_tolerances =
       thrown.foldl (fun tbl ev => setTol tbl (eventID ev) (abs ev.vel + DBL_EPSILON))
         stR.event_tolerances) := by
  intro env st stR thrown hproc
  constructor
  · simp only [handle_events, hproc]
  · simp only [handle_events, hproc]

/-- Claim C2, witness: the amended behavior at the concrete C7 fixture. -/
theorem handle_events_updates_tolerances_no_retry_witness :
    ((handle_events envW7 stZero).2 = 1 ∧
     (handle_events envW7 stZero).1.event_tolerances =
       [evW7].foldl (fun tbl ev => setTol tbl (eventID ev) (abs ev.vel + DBL_EPSILON))
         (preprocess_all stZero).event_tolerances) :=
  handle_events_updates_tolerances_no_retry envW7 stZero (preprocess_all stZero) [evW7] rfl

/-
  Claim C4.
-/

/-- First equal-time event of the C4 fixture (velocity 1). -/
def evA4 : Event := mkEv EventType.eContact 0 1 0

/-- Second equal-time event of the C4 fixture (velocity 2). -/
def evB4 : Event := mkEv EventType.eContact 0 2 0

/-- Claim C4, counterexample: the sort at line 599 is std::sort, whose
contract (SortSpec) admits any sorted permutation.  The output [evB4, evA4]
satisfies that contract for the input [evA4, evB4] of two distinct events with
exactly equal t, yet reverses their pre-sort relative order, so the claimed
stability is not guaranteed by the code. -/
theorem sort_stability_cx :
    SortSpec [evA4, evB4] [evB4, evA4] ∧ ¬ StableByT [evA4, evB4] [evB4, evA4] := by
  constructor
  · constructor
    · exact List.Perm.swap evB4 evA4 []
    · simp [List.sorted_cons, evA4, evB4, mkEv]
  · intro hst
    have h0 := hst 0
    simp [evA4, evB4, mkEv, List.filter] at h0

/-- Claim C4 (amended): every output admitted by the std::sort contract is
nondecreasing in t, and events of exactly equal t are contiguous in it (any
event lying between two equal-t events carries the same t); but the pre-sort
relative order of equal-t events is not guaranteed, std::sort being unstable.
-/
theorem sorted_and_contiguous :
    ∀ (l l2 : List Event), SortSpec l l2 →
    (List.Sorted (fun a b => a.t ≤ b.t) l2 ∧
     ∀ (i j k : ℕ) (hij : i ≤ j) (hjk : j ≤ k) (hk : k < l2.length),
       (l2.get ⟨i, lt_of_le_of_lt (le_trans hij hjk) hk⟩).t = (l2.get ⟨k, hk⟩).t →
       (l2.get ⟨j, lt_of_le_of_lt hjk hk⟩).t = (l2.get ⟨k, hk⟩).t) := by
  intro l l2 hs
  refine ⟨hs.2, ?_⟩
  intro i j k hij hjk hk hik
  have hsort := hs.2
  have h12 : (l2.get ⟨i, lt_of_le_of_lt (le_trans hij hjk) hk⟩).t
      ≤ (l2.get ⟨j, lt_of_le_of_lt hjk hk⟩).t := by
    rcases lt_or_eq_of_le hij with h | h
    · exact List.pairwise_iff_get.mp hsort _ _ (Fin.mk_lt_mk.mpr h)
    · cases h; exact le_refl _
  have h23 : (l2.get ⟨j, lt_of_le_of_lt hjk hk⟩).t ≤ (l2.get ⟨k, hk⟩).t := by
    rcases lt_or_eq_of_le hjk with h | h
    · exact List.pairwise_iff_get.mp hsort _ _ (Fin.mk_lt_mk.mpr h)
    · cases h; exact le_refl _
  have := hik ▸ h12
  linarith

/-- Claim C4, witness: the singleton event list is an admissible sort output
of itself, and the amended conclusion holds on it. -/
theorem sorted_and_contiguous_witness :
    List.Sorted (fun a b : Event => a.t ≤ b.t) [evA4] :=
  (sorted_and_contiguous [evA4] [evA4]
    ⟨List.Perm.refl _, List.sorted_singleton evA4⟩).1

/-
  Claim C8.
-/

/-- The C8 parameters stored for the (rigid body 5, articulated body 3)
pair. -/
def pX1 : CParams := { mu_coulomb := 1, mu_viscous := 0, epsilon := 0, NK := 4 }

/-- The C8 parameters stored for the (geometry 1, articulated body 6)
pair. -/
def pX2 : CParams := { mu_coulomb := 2, mu_viscous := 0, epsilon := 0, NK := 4 }

/-- The C8 contact-parameters map: one rigid-articulated entry and one
geometry-articulated entry. -/
def cpX : ParamMap := [((3, 5), pX1), ((1, 6), pX2)]

/-- Claim C8, counterexample: the claim's strict six-level order would probe
all (geometry, articulated) pairs before any (rigid body, articulated) pair
and so return pX2, stored for (geometry 1 of gA, articulated body 6 of gB);
but the code's ab1 block (lines 112-118) probes (rigid body 5 of gB,
articulated body 3 of gA) before ever reaching the (geometry, articulated)
lookup of the ab2 block, and returns pX1. -/
theorem contact_params_order_cx :
    get_contact_parameters cpX gA gB = some pX1 ∧
    get_contact_parameters_claimed cpX gA gB = some pX2 ∧
    pX1 ≠ pX2 := by
  refine ⟨by decide, by decide, by decide⟩

/-- Claim C8 (amended): contact parameters are resolved first-match-wins over
the probe sequence (geom1, geom2), (geom1, body2), (geom2, body1),
(body1, body2), then when body1 has an articulated body ab1: (geom2, ab1),
(body2, ab1), then when body2 has an articulated body ab2: (geom1, ab2),
(body1, ab2), then (ab1, ab2) — the geometry-articulated and body-articulated
levels are interleaved per articulated body rather than strictly ordered; and
when nothing matches, preprocess_event warns and leaves the contact event's
default parameters unchanged. -/
theorem get_contact_parameters_order :
    (∀ (cp : ParamMap) (g1 g2 : Geom),
      get_contact_parameters cp g1 g2 = firstMatch cp (contactParamKeys g1 g2)) ∧
    (∀ (cp : ParamMap) (e : Event), e.event_type = EventType.eContact →
      get_contact_parameters cp e.contact_geom1 e.contact_geom2 = Option.none →
      preprocess_event cp e = (e, true)) := by
  constructor
  · intro cp g1 g2
    obtain ⟨gid1, sbid1, ab1⟩ := g1
    obtain ⟨gid2, sbid2, ab2⟩ := g2
    cases ab1 <;> cases ab2 <;> rfl
  · intro cp e hty hnone
    simp only [preprocess_event, hty, hnone]

/-- Claim C8, witness: both amended conjuncts at concrete inputs — the probe
sequence on the fixture map, and the warning pass-through on the empty map. -/
theorem get_contact_parameters_order_witness :
    (get_contact_parameters cpX gA gB = firstMatch cpX (contactParamKeys gA gB) ∧
     preprocess_event [] (mkEv EventType.eContact 0 0 0)
       = (mkEv EventType.eContact 0 0 0, true)) :=
  ⟨get_contact_parameters_order.1 cpX gA gB,
   get_contact_parameters_order.2 [] (mkEv EventType.eContact 0 0 0) rfl rfl⟩

/-
  Claim C5.
-/

/-- The C5 environment: no detectors fire; integration carries the single
body from coordinate 1 to the provisional end coordinate 2 with end
velocity 1. -/
def envW5 : Env :=
  { is_contact := fun _ _ _ => [], find_limit_events := fun _ _ _ => [],
    integrate := fun _ _ _ _ => ([[2]], [[1]]),
    process_events := fun s => (s, Option.none), sort_events := id }

/-- The C5 start state: one body at coordinate 1 with velocity 1. -/
def stW5 : SimState :=
  { events := [], q0 := [[0]], qf := [[0]], qdf := [[0]], coords := [[1]],
    vels := [[1]], current_time := 0, event_tolerances := [], contact_params := [] }

/-- Claim C5, failing run: a step of size 1 whose builder returns zero
candidates.  Integration produces the provisional end coordinate 2 (= q0 +
qdf*dt for q0 = 1, qdf = 1), but the no-candidate path of find_TOI (lines
1180-1186) computes _q0[i] += _qdf[i]*dt yet passes _qf[i] = _qdf[i]*dt to
set_generalized_coordinates, so the step leaves the body at coordinate 1,
not at the fully-integrated provisional end state 2.  (The sibling branch at
lines 1104-1111 and the impacting branch at lines 1156-1161 both commit the
correct value, and spec sections 4.3 and 8 state the intended behavior.) -/
theorem no_candidates_final_coords_bug :
    (envW5.integrate 0 1 [[1]] [[1]]).1 = [[2]] ∧
    (step envW5 1 1 stW5).map (fun p => p.2.coords) = some [[1]] ∧
    ([[(1 : ℚ)]] : List Vec) ≠ [[(2 : ℚ)]] := by
  refine ⟨rfl, ?_, by norm_num⟩
  norm_num [step, stepLoop, find_and_handle_si_events, find_TOI, findTOI_exhausted,
    stW5, envW5, stamp_event, vscale, vadd, DBL_MAX]

end Moby
